import Mathlib

/-!
Verification development for the data-universe validator core.

The development shallowly embeds the bucketed-index data model, the index
normalization routine, basic entity validation, weighted entity selection,
the per-miner evaluation state machine of `MinerEvaluator.eval_miner`, and
the scheduling pass `MinerEvaluator.run_next_eval_batch`.

Machine integers are modelled as `Nat`/`Int`; timestamps are seconds since
the Unix epoch as `Int`; byte strings are modelled as `List Char` so that
`len(content)` is `List.length`; fallible Python code is modelled with
`Option`/`Except`, a raised exception being an `Except.error`.
-/

/- ===== Constants (from common/constants.py and common/utils.py) ===== -/

def _KB : Nat := 1024

def _MB : Nat := 1024 * _KB

/-- From common/utils.py: returns the total number of bytes for `mb` megabytes. -/
def mb_to_bytes (mb : Nat) : Nat := mb * _MB

/-- From common/constants.py: how big any one data entity bucket can be. -/
def DATA_ENTITY_BUCKET_SIZE_LIMIT_BYTES : Nat := mb_to_bytes 128

/-- From common/constants.py: how many buckets any one miner index can have. -/
def DATA_ENTITY_BUCKET_COUNT_LIMIT_PER_MINER_INDEX : Nat := 200000

/-- From common/constants.py: the maximum number of characters a label can have. -/
def MAX_LABEL_LENGTH : Nat := 32

/-- Modelled from the spec: `MIN_EVALUATION_PERIOD` is referenced by
miner_evaluator.py but its definition is not among the provided sources.
The spec fixes only its role (the minimum re-evaluation interval per miner),
not its value; it is modelled here as 60 minutes, in seconds.  No theorem
below depends on the chosen value. -/
def MIN_EVALUATION_PERIOD : Int := 60 * 60

/- ===== Data model (common/data.py is not among the provided sources) ===== -/

/-- Modelled from the spec: `Source` is a closed enumeration of the two
external content platforms (common/data.py `DataSource` is missing). -/
inductive DataSource where
  | reddit
  | x
deriving DecidableEq

/-- Modelled from the spec: a `TimeBucket` identifies the fixed 1-hour UTC
window `[id*3600, (id+1)*3600)` seconds since epoch (common/data.py is
missing).  `from_datetime` is `floor(unix_seconds / 3600)`, as in
common/utils.py `time_bucket_id_from_datetime`. -/
structure TimeBucket where
  id : Nat
deriving DecidableEq

/-- From common/utils.py `seconds_to_hours` composed with `timestamp()`:
the time bucket id of a timestamp, using floor division as Python does. -/
def TimeBucket.from_timestamp (seconds : Int) : TimeBucket :=
  ⟨(seconds.ediv 3600).toNat⟩

/-- Modelled from the spec: a bounded-length (at most `MAX_LABEL_LENGTH`
characters, and not the empty string) case-insensitive classification tag
(common/data.py `DataLabel` is missing).  Case-insensitivity is modelled by
canonicalizing the value to lower case on construction. -/
structure DataLabel where
  value : String
deriving DecidableEq

/-- Lower-casing done character by character; the reference
implementation lower-cases the label value on construction. -/
def lowerString (s : String) : String := ⟨s.data.map Char.toLower⟩

/-- Modelled from the spec: the validating constructor of `DataLabel`;
construction fails (pydantic raises) on the empty string and on values
longer than `MAX_LABEL_LENGTH`. -/
def mkDataLabel (s : String) : Option DataLabel :=
  if s.length = 0 ∨ MAX_LABEL_LENGTH < s.length then none else some ⟨lowerString s⟩

/-- Modelled from the spec: composite key `(TimeBucket, Source, Label?)`
(common/data.py `DataEntityBucketId` is missing). -/
structure DataEntityBucketId where
  time_bucket : TimeBucket
  source : DataSource
  label : Option DataLabel
deriving DecidableEq

/-- Modelled from the spec: a bucket as advertised by a miner
(common/data.py `DataEntityBucket` is missing). -/
structure DataEntityBucket where
  id : DataEntityBucketId
  size_bytes : Nat
deriving DecidableEq

/-- Modelled from the spec: one content item (common/data.py `DataEntity`
is missing).  `content` models the raw payload bytes as a `List Char`, so
the payload length is `content.length`. -/
structure DataEntity where
  uri : String
  datetime : Int
  source : DataSource
  label : Option DataLabel
  content : List Char
  content_size_bytes : Nat
deriving DecidableEq

/-- Modelled from the spec: an uncompressed miner index
(common/data.py `MinerIndex` is missing). -/
structure MinerIndex where
  hotkey : String
  data_entity_buckets : List DataEntityBucket
deriving DecidableEq

/-- Modelled from the spec: all buckets sharing a `(source, label)` pair,
with the varying `(time_bucket_id, size)` pairs held in two parallel arrays,
`time_bucket_ids[i]` and `sizes_bytes[i]` positionally paired
(common/data.py `CompressedEntityBucket` is missing). -/
structure CompressedEntityBucket where
  label : Option DataLabel
  time_bucket_ids : List Nat
  sizes_bytes : List Nat
deriving DecidableEq

/-- Modelled from the spec: the compressed wire form of an index, a map
from source to compressed buckets; the Python dict with its insertion order
is modelled as an association list (common/data.py `CompressedMinerIndex`
is missing). -/
structure CompressedMinerIndex where
  sources : List (DataSource × List CompressedEntityBucket)
deriving DecidableEq

/-- Modelled from the spec: total number of buckets summarized by a
compressed index (`CompressedMinerIndex.bucket_count`). -/
def CompressedMinerIndex.bucket_count (ci : CompressedMinerIndex) : Nat :=
  (ci.sources.map (fun sb => (sb.2.map (fun b => b.time_bucket_ids.length)).sum)).sum

/-- Modelled from the spec: a `DataEntityBucket` annotated with
`scorable_bytes`, the portion of `size_bytes` currently counting for
rewards (common/data_v2.py `ScorableDataEntityBucket` is missing).  Field
shapes follow the constructor calls in tests/vali_utils/test_vali_utils.py. -/
structure ScorableDataEntityBucket where
  data_entity_bucket : DataEntityBucket
  scorable_bytes : Nat
deriving DecidableEq

/-- Modelled from the spec: a scored miner index carrying `last_updated`
(common/data_v2.py `ScorableMinerIndex` is missing). -/
structure ScorableMinerIndex where
  hotkey : String
  scorable_data_entity_buckets : List ScorableDataEntityBucket
  last_updated : Int
deriving DecidableEq

/-- Modelled from the spec: the index-request reply (common/protocol.py
`GetMinerIndex` is missing).  A reply may carry an uncompressed index, a
compressed index, or neither. -/
structure GetMinerIndex where
  data_entity_buckets : Option (List DataEntityBucket)
  compressed_index : Option CompressedMinerIndex
deriving DecidableEq

/-- Modelled from the spec: the outcome of verifying one entity
(scraping/scraper.py `ValidationResult` is missing); field names follow the
constructor calls in vali_utils/miner_evaluator.py. -/
structure ValidationResult where
  is_valid : Bool
  reason : String
  content_size_bytes_validated : Nat
deriving DecidableEq

/- ===== vali_utils/utils.py (not among the provided sources) ===== -/

/-- Modelled from the spec: expanding a `CompressedEntityBucket` for one
source into individual `DataEntityBucket`s is a pure, order-preserving
unzip of the two parallel arrays (vali_utils/utils.py is missing; the
expected expansion is pinned down by
tests/vali_utils/test_vali_utils.py `test_get_miner_index_from_response_compressed_index`). -/
def expandCompressedBucket (source : DataSource) (b : CompressedEntityBucket) :
    List DataEntityBucket :=
  (b.time_bucket_ids.zip b.sizes_bytes).map
    (fun ts => ⟨⟨⟨ts.1⟩, source, b.label⟩, ts.2⟩)

/-- Modelled from the spec: expansion of a whole compressed index, source
by source in map order, then bucket by bucket. -/
def expandCompressedIndex (ci : CompressedMinerIndex) : List DataEntityBucket :=
  ci.sources.flatMap (fun sb => sb.2.flatMap (expandCompressedBucket sb.1))

/-- True when some advertised bucket exceeds the per-bucket byte limit. -/
def anyBucketTooLarge (bs : List DataEntityBucket) : Bool :=
  bs.any (fun b => decide (DATA_ENTITY_BUCKET_SIZE_LIMIT_BYTES < b.size_bytes))

/-- True when some advertised size in a compressed index exceeds the
per-bucket byte limit. -/
def anyCompressedSizeTooLarge (ci : CompressedMinerIndex) : Bool :=
  ci.sources.any (fun sb =>
    sb.2.any (fun b =>
      b.sizes_bytes.any (fun s => decide (DATA_ENTITY_BUCKET_SIZE_LIMIT_BYTES < s))))

/-- True when some compressed bucket has parallel arrays of unequal length. -/
def anyMisalignedArrays (ci : CompressedMinerIndex) : Bool :=
  ci.sources.any (fun sb =>
    sb.2.any (fun b => decide (b.time_bucket_ids.length ≠ b.sizes_bytes.length)))

/-- Modelled from the spec: `normalize(response, hotkey) -> MinerIndex`
(vali_utils/utils.py `get_miner_index_from_response` is missing).  It fails
(Python raises ValueError, here `Except.error`) when the response carries
neither index form, when the summary bucket count or a bucket byte size
exceeds the limits (entire index rejected, no partial acceptance), or when
a compressed bucket has parallel arrays of unequal length.  When the reply
carries both forms the uncompressed one is used.  Tests in
tests/vali_utils/test_vali_utils.py pin down the accepted and rejected
shapes and the expansion order used here. -/
def get_miner_index_from_response (response : GetMinerIndex) (hotkey : String) :
    Except String MinerIndex :=
  match response.data_entity_buckets with
  | some bs =>
    if DATA_ENTITY_BUCKET_COUNT_LIMIT_PER_MINER_INDEX < bs.length then
      Except.error "Too many buckets in miner index."
    else if anyBucketTooLarge bs then
      Except.error "Bucket size exceeds limit."
    else
      Except.ok ⟨hotkey, bs⟩
  | none =>
    match response.compressed_index with
    | some ci =>
      if anyMisalignedArrays ci then
        Except.error "Parallel arrays differ in length."
      else if DATA_ENTITY_BUCKET_COUNT_LIMIT_PER_MINER_INDEX < ci.bucket_count then
        Except.error "Too many buckets in miner index."
      else if anyCompressedSizeTooLarge ci then
        Except.error "Bucket size exceeds limit."
      else
        Except.ok ⟨hotkey, expandCompressedIndex ci⟩
    | none => Except.error "Response contained neither an uncompressed nor a compressed index."

/-- Start of the 1-hour window of a time bucket, in seconds since epoch. -/
def bucketWindowStart (tb : TimeBucket) : Int := (tb.id : Int) * 3600

/-- End (exclusive) of the 1-hour window of a time bucket. -/
def bucketWindowEnd (tb : TimeBucket) : Int := ((tb.id : Int) + 1) * 3600

/-- True when a timestamp lies in the window `[id*3600, (id+1)*3600)`. -/
def inTimeBucket (tb : TimeBucket) (t : Int) : Bool :=
  decide (bucketWindowStart tb ≤ t) && decide (t < bucketWindowEnd tb)

/-- Case-insensitive comparison of two optional labels. -/
def labelsMatch (a b : Option DataLabel) : Bool :=
  (a.map (fun l => lowerString l.value)) == (b.map (fun l => lowerString l.value))

def entitySizeMismatchReason : String :=
  "Size not as expected: entity content_size_bytes does not match the content payload length."

def aggregateSizeMismatchReason : String :=
  "Size not as expected: total content size does not match the advertised bucket size_bytes."

def sourceMismatchReason : String :=
  "Entity source does not match the bucket source."

def labelMismatchReason : String :=
  "Entity label does not match the bucket label."

def datetimeMismatchReason : String :=
  "Entity datetime is not within the bucket time range."

/-- Modelled from the spec: basic structural validation of a returned
bucket (vali_utils/utils.py `are_entities_valid` is missing).  Per-entity
size consistency, aggregate size equality against the advertised
`size_bytes`, and per-entity source, label and datetime-window conformance
are each checked, each failure kind surfacing its own reason; any single
non-conforming entity invalidates the whole bucket response.  The reason
wording matches the regexes asserted in
tests/vali_utils/test_vali_utils.py `test_are_entities_valid_invalid_entities`. -/
def are_entities_valid (entities : List DataEntity) (bucket : DataEntityBucket) :
    Bool × String :=
  if entities.any (fun e => decide (e.content_size_bytes ≠ e.content.length)) then
    (false, entitySizeMismatchReason)
  else if (entities.map (fun e => e.content_size_bytes)).sum ≠ bucket.size_bytes then
    (false, aggregateSizeMismatchReason)
  else if entities.any (fun e => decide (e.source ≠ bucket.id.source)) then
    (false, sourceMismatchReason)
  else if entities.any (fun e => !(labelsMatch e.label bucket.id.label)) then
    (false, labelMismatchReason)
  else if entities.any (fun e => !(inTimeBucket bucket.id.time_bucket e.datetime)) then
    (false, datetimeMismatchReason)
  else
    (true, "")

/-- The fields whose joint duplication marks two entities as duplicates. -/
def entityKey (e : DataEntity) : String × Int × DataSource × Option DataLabel × List Char :=
  (e.uri, e.datetime, e.source, e.label, e.content)

/-- Modelled from the spec: true iff no two entities share identical
`(uri, datetime, source, label, content)` (vali_utils/utils.py
`are_entities_unique` is missing). -/
def are_entities_unique (entities : List DataEntity) : Bool :=
  decide (entities.map entityKey).Nodup

/-- Total scorable weight of a scored index. -/
def totalScorableBytes (index : ScorableMinerIndex) : Nat :=
  (index.scorable_data_entity_buckets.map (fun b => b.scorable_bytes)).sum

/-- Walks the buckets accumulating weights and returns the first bucket
whose cumulative weight strictly exceeds the drawn point `r`. -/
def pickBucketAt : List ScorableDataEntityBucket → Nat → Option DataEntityBucket
  | [], _ => none
  | b :: rest, r =>
    if r < b.scorable_bytes then some b.data_entity_bucket
    else pickBucketAt rest (r - b.scorable_bytes)

/-- Modelled from the spec: weighted single-draw bucket selection
(vali_utils/utils.py `choose_data_entity_bucket_to_query` is missing).
One bucket is selected with probability proportional to its
`scorable_bytes`; zero-weight buckets have zero selection probability; if
all weights are zero the operation fails with `NoScorableDataError`.  The
randomness is modelled by a `seed`, reduced to a draw uniform over the
total weight. -/
def choose_data_entity_bucket_to_query (index : ScorableMinerIndex) (seed : Nat) :
    Except String DataEntityBucket :=
  let total := totalScorableBytes index
  if total = 0 then
    Except.error "NoScorableDataError: no scorable data in the miner index."
  else
    match pickBucketAt index.scorable_data_entity_buckets (seed % total) with
    | some bucket => Except.ok bucket
    | none => Except.error "NoScorableDataError: no scorable data in the miner index."

/-- One weighted draw from a pool of entities: returns the first entity
whose cumulative `content_size_bytes` strictly exceeds the drawn point `r`,
together with the remaining pool (the selected entity removed); when the
point lies past the total weight the last entity is returned.  Returns
`none` only on the empty pool. -/
def chooseOne : List DataEntity → Nat → Option (DataEntity × List DataEntity)
  | [], _ => none
  | [e], _ => some (e, [])
  | e :: rest, r =>
    if r < e.content_size_bytes then some (e, rest)
    else (chooseOne rest (r - e.content_size_bytes)).map (fun x => (x.1, e :: x.2))

/-- The random point of draw `i` over a pool: the seed reduced modulo the
total pool weight at the moment of the draw. -/
def drawPoint (seeds : Nat → Nat) (i : Nat) (pool : List DataEntity) : Nat :=
  let total := (pool.map (fun e => e.content_size_bytes)).sum
  if total = 0 then 0 else seeds i % total

/-- The loop of sequential weighted draws without replacement: each
selected entity and its weight are removed from the pool before the next
draw. -/
def chooseLoop (seeds : Nat → Nat) : Nat → List DataEntity → Nat → List DataEntity
  | 0, _, _ => []
  | Nat.succ n, pool, i =>
    match chooseOne pool (drawPoint seeds i pool) with
    | none => []
    | some er => er.1 :: chooseLoop seeds n er.2 (i + 1)

/-- Modelled from the spec: entity selection for deep verification
(vali_utils/utils.py `choose_entities_to_verify` is missing).  Given `k`
candidates it selects `min(2, k)` distinct entities without replacement,
each draw weighted by `content_size_bytes` with the selected entity removed
from the pool before the second draw. -/
def choose_entities_to_verify (entities : List DataEntity) (seeds : Nat → Nat) :
    List DataEntity :=
  chooseLoop seeds (min 2 entities.length) entities 0

/- ===== vali_utils/miner_evaluator.py : eval_miner ===== -/

/-- One call to `scorer.on_miner_evaluated(uid, index, validation_results)`. -/
structure ScorerCall where
  uid : Nat
  index : Option ScorableMinerIndex
  results : List ValidationResult
deriving DecidableEq

/-- The external collaborators one run of `eval_miner` interacts with, each
modelled as the reply it would give.  `indexResponse` is the result of
`get_single_successful_response` on the `GetMinerIndex` round-trip (`none`
for no/failed response); `readStoredIndex` is `storage.read_miner_index`
before any upsert; `readIndexAfterUpsert` is the same read after the given
normalized index has been upserted; `bucketResponse` gives the entities of
the `GetDataEntityBucket` round-trip (`none` for no/invalid response);
`scraperResults` is the content verifier; `bucketSeed` and `entitySeeds`
model the randomness of the two sampling steps. -/
structure EvalEnv where
  hotkey : String
  indexResponse : Option GetMinerIndex
  readStoredIndex : Option ScorableMinerIndex
  readIndexAfterUpsert : MinerIndex → Option ScorableMinerIndex
  bucketResponse : DataEntityBucket → Option (List DataEntity)
  scraperResults : List DataEntity → List ValidationResult
  bucketSeed : Nat
  entitySeeds : Nat → Nat

/-- From vali_utils/miner_evaluator.py `_update_and_get_miner_index`
(lines 345 to 404): when the miner gives no response, or the response fails
normalization, fall back to the last persisted index; on a valid reply,
upsert the normalized index and return the freshly read stored index. -/
def update_and_get_miner_index (env : EvalEnv) : Option ScorableMinerIndex :=
  match env.indexResponse with
  | none => env.readStoredIndex
  | some response =>
    match get_miner_index_from_response response env.hotkey with
    | Except.error _ => env.readStoredIndex
    | Except.ok miner_index => env.readIndexAfterUpsert miner_index

/-- From vali_utils/miner_evaluator.py `eval_miner` (lines 92 to 239): the
eight-step per-miner evaluation.  The returned pair carries the control
outcome (`Except.error` models an uncaught Python exception escaping
`eval_miner`) and the list of calls made to
`scorer.on_miner_evaluated`, in order. -/
def eval_miner (env : EvalEnv) (uid : Nat) : Except String Unit × List ScorerCall :=
  match update_and_get_miner_index env with
  | none =>
    (Except.ok (), [⟨uid, none, [⟨false, "No available miner index.", 0⟩]⟩])
  | some index =>
    match choose_data_entity_bucket_to_query index env.bucketSeed with
    | Except.error e => (Except.error e, [])
    | Except.ok chosen_data_entity_bucket =>
      match env.bucketResponse chosen_data_entity_bucket with
      | none =>
        (Except.ok (), [⟨uid, some index, [⟨false, "Response failed or is invalid.", 0⟩]⟩])
      | some data_entities =>
        let vr := are_entities_valid data_entities chosen_data_entity_bucket
        if vr.1 = false then
          (Except.ok (), [⟨uid, some index, [⟨false, vr.2, 0⟩]⟩])
        else if are_entities_unique data_entities = false then
          (Except.ok (), [⟨uid, some index, [⟨false, "Duplicate entities found.", 0⟩]⟩])
        else
          let entities_to_validate := choose_entities_to_verify data_entities env.entitySeeds
          (Except.ok (), [⟨uid, some index, env.scraperResults entities_to_validate⟩])

/- ===== vali_utils/miner_evaluator.py : run_next_eval_batch ===== -/

/-- The collaborators of one scheduling pass: `hotkeys` is the snapshot of
`metagraph.hotkeys`; `lastUpdated` is `storage.read_miner_last_updated`;
`stream n` is the uid returned by the n-th `next()` call on the round-robin
miner iterator, so `stream 0` is also what `peek()` returns. -/
structure SchedulerState where
  hotkeys : Nat → String
  lastUpdated : String → Option Int
  stream : Nat → Nat

/-- From run_next_eval_batch (lines 262 to 288): whether a miner is due an
update, namely never evaluated or evaluated at least
`MIN_EVALUATION_PERIOD` seconds before `now`. -/
def dueForUpdate (s : SchedulerState) (now : Int) (uid : Nat) : Bool :=
  match s.lastUpdated (s.hotkeys uid) with
  | none => true
  | some t => decide (MIN_EVALUATION_PERIOD ≤ now - t)

/-- The decision phase of a scheduling pass, up to the assertion on line
291 of vali_utils/miner_evaluator.py. -/
inductive EvalPass where
  | wait (seconds : Int)
  | batch (uids : List Nat)
  | assertViolation
deriving DecidableEq

/-- From run_next_eval_batch (lines 274 to 291): draw 10 uids from the
iterator into a set (modelled as a deduplicated list), keep those due an
update, and require the result nonempty (`assert uids_to_eval`). -/
def batchDecision (s : SchedulerState) (now : Int) : EvalPass :=
  let uids_to_check := ((List.range 10).map s.stream).dedup
  let uids_to_eval := uids_to_check.filter (dueForUpdate s now)
  if uids_to_eval.isEmpty then EvalPass.assertViolation else EvalPass.batch uids_to_eval

/-- From run_next_eval_batch (lines 256 to 291): peek the next uid; when it
is not due an update return the remaining wait; otherwise proceed to the
batch phase. -/
def scheduleDecision (s : SchedulerState) (now : Int) : EvalPass :=
  match s.lastUpdated (s.hotkeys (s.stream 0)) with
  | none => batchDecision s now
  | some last_evaluated =>
    if decide (MIN_EVALUATION_PERIOD ≤ now - last_evaluated) then batchDecision s now
    else EvalPass.wait (last_evaluated + MIN_EVALUATION_PERIOD - now)

/-- Whether the Python class `datetime.datetime` has an attribute named
timedelta.  It does not: `timedelta` is a class of the `datetime` module,
not an attribute of the `datetime` class inside it. -/
def datetimeClassHasTimedeltaAttr : Bool := false

def attributeErrorMsg : String :=
  "AttributeError: type object datetime.datetime has no attribute timedelta"

/-- From run_next_eval_batch line 304: the shared deadline is computed as
`datetime.datetime.now() + datetime.datetime.timedelta(seconds=300)`.  The
attribute lookup `datetime.datetime.timedelta` is evaluated first; were it
present the deadline would be `now + 300`. -/
def computeJoinDeadline (now : Int) : Except String Int :=
  if datetimeClassHasTimedeltaAttr then Except.ok (now + 300)
  else Except.error attributeErrorMsg

/-- From run_next_eval_batch (lines 241 to 312): the whole pass.  A wait
path returns the remaining seconds; the batch path starts one thread per
eligible uid and then computes the shared join deadline before joining the
threads and returning a zero wait.  `Except.error` models an uncaught
Python exception escaping the pass. -/
def run_next_eval_batch (s : SchedulerState) (now : Int) : Except String Int :=
  match scheduleDecision s now with
  | EvalPass.wait w => Except.ok w
  | EvalPass.assertViolation =>
    Except.error "AssertionError: Expected at least 1 miner to evaluate."
  | EvalPass.batch _ =>
    match computeJoinDeadline now with
    | Except.error e => Except.error e
    | Except.ok _ => Except.ok 0

/- ===== scraping/reddit/model.py : RedditContent ===== -/

/-- From scraping/reddit/model.py `RedditDataType`. -/
inductive RedditDataType where
  | post
  | comment
deriving DecidableEq

/-- From scraping/reddit/model.py `RedditContent`: the content model for
Reddit data.  `created_at` is a timestamp in seconds since epoch; `title`
is a post-only field and `parent_id` a comment-only field. -/
structure RedditContent where
  id : String
  url : String
  username : String
  community : String
  body : String
  created_at : Int
  data_type : RedditDataType
  title : Option String
  parent_id : Option String
deriving DecidableEq

/-- Unary encoding of a natural number, used as a length prefix. -/
def encodeNatU (n : Nat) : List Char := List.replicate n '1' ++ ['0']

/-- Length-prefixed encoding of a string. -/
def encodeStr (s : String) : List Char := encodeNatU s.data.length ++ s.data

/-- Sign-tagged encoding of an integer. -/
def encodeInt (i : Int) : List Char :=
  if i < 0 then 'n' :: encodeNatU (-i).toNat else 'p' :: encodeNatU i.toNat

/-- Tagged encoding of an optional string. -/
def encodeOptStr : Option String → List Char
  | none => ['N']
  | some s => 'S' :: encodeStr s

/-- Tagged encoding of a Reddit data type. -/
def encodeDataType : RedditDataType → List Char
  | RedditDataType.post => ['P']
  | RedditDataType.comment => ['C']

/-- Modelled from the spec: the serialized payload
`content.json(by_alias=True).encode("utf-8")` produced by the external
pydantic library in `RedditContent.to_data_entity`.  The library is not
part of this repository; its serialization is modelled as an injective
encoding of all fields in declaration order, with `parseRedditContent` as
its exact parser (`RedditContent.parse_raw`). -/
def encodeRedditContent (c : RedditContent) : List Char :=
  encodeStr c.id ++ encodeStr c.url ++ encodeStr c.username ++ encodeStr c.community ++
    encodeStr c.body ++ encodeInt c.created_at ++ encodeDataType c.data_type ++
    encodeOptStr c.title ++ encodeOptStr c.parent_id

/-- Parser for the unary length prefix. -/
def decodeNatU : List Char → Option (Nat × List Char)
  | '0' :: rest => some (0, rest)
  | '1' :: rest => (decodeNatU rest).map (fun x => (x.1 + 1, x.2))
  | _ => none

/-- Parser for a length-prefixed string. -/
def decodeStr (l : List Char) : Option (String × List Char) :=
  (decodeNatU l).bind
    (fun x => if x.1 ≤ x.2.length then some (⟨x.2.take x.1⟩, x.2.drop x.1) else none)

/-- Parser for a sign-tagged integer. -/
def decodeInt : List Char → Option (Int × List Char)
  | 'n' :: rest => (decodeNatU rest).map (fun x => (-(x.1 : Int), x.2))
  | 'p' :: rest => (decodeNatU rest).map (fun x => ((x.1 : Int), x.2))
  | _ => none

/-- Parser for a tagged optional string. -/
def decodeOptStr : List Char → Option (Option String × List Char)
  | 'N' :: rest => some (none, rest)
  | 'S' :: rest => (decodeStr rest).map (fun x => (some x.1, x.2))
  | _ => none

/-- Parser for a tagged Reddit data type. -/
def decodeDataType : List Char → Option (RedditDataType × List Char)
  | 'P' :: rest => some (RedditDataType.post, rest)
  | 'C' :: rest => some (RedditDataType.comment, rest)
  | _ => none

/-- Modelled from the spec: `RedditContent.parse_raw` applied to a decoded
payload, the exact parser of `encodeRedditContent`; returns `none` on any
malformed payload. -/
def parseRedditContent (l : List Char) : Option RedditContent :=
  (decodeStr l).bind fun x1 =>
  (decodeStr x1.2).bind fun x2 =>
  (decodeStr x2.2).bind fun x3 =>
  (decodeStr x3.2).bind fun x4 =>
  (decodeStr x4.2).bind fun x5 =>
  (decodeInt x5.2).bind fun x6 =>
  (decodeDataType x6.2).bind fun x7 =>
  (decodeOptStr x7.2).bind fun x8 =>
  (decodeOptStr x8.2).bind fun x9 =>
  if x9.2.isEmpty then
    some ⟨x1.1, x2.1, x3.1, x4.1, x5.1, x6.1, x7.1, x8.1, x9.1⟩
  else none

/-- From scraping/reddit/model.py `RedditContent.to_data_entity`: builds
the serialized content bytes and wraps them in a `DataEntity` whose label
is `DataLabel(value=content.community)`; label construction fails (the
pydantic validation raises, modelled as `none`) when the community is not a
valid label value. -/
def RedditContent.to_data_entity (content : RedditContent) : Option DataEntity :=
  match mkDataLabel content.community with
  | none => none
  | some lbl =>
    let content_bytes := encodeRedditContent content
    some
      { uri := content.url
        datetime := content.created_at
        source := DataSource.reddit
        label := some lbl
        content := content_bytes
        content_size_bytes := content_bytes.length }

/-- From scraping/reddit/model.py `RedditContent.from_data_entity`: parses
the entity content back into a `RedditContent`. -/
def RedditContent.from_data_entity (data_entity : DataEntity) : Option RedditContent :=
  parseRedditContent data_entity.content

/- ===== Helper lemmas: serialization round trip ===== -/

theorem decodeNatU_encode (n : Nat) (rest : List Char) :
    decodeNatU (encodeNatU n ++ rest) = some (n, rest) := by
  induction n with
  | zero => simp [encodeNatU, decodeNatU]
  | succ n ih =>
    have ih2 : decodeNatU (List.replicate n '1' ++ '0' :: rest) = some (n, rest) := by
      simpa [encodeNatU, List.append_assoc] using ih
    simp [encodeNatU, List.replicate_succ, decodeNatU, ih2, List.append_assoc]

theorem decodeStr_encode (s : String) (rest : List Char) :
    decodeStr (encodeStr s ++ rest) = some (s, rest) := by
  have h1 : encodeStr s ++ rest = encodeNatU s.data.length ++ (s.data ++ rest) := by
    simp [encodeStr, List.append_assoc]
  have hle : s.data.length ≤ (s.data ++ rest).length := by
    simp [List.length_append]
  rw [decodeStr, h1, decodeNatU_encode]
  simp [hle, List.take_left, List.drop_left]

theorem decodeInt_encode (i : Int) (rest : List Char) :
    decodeInt (encodeInt i ++ rest) = some (i, rest) := by
  by_cases h : i < 0
  · simp [encodeInt, h, decodeInt, decodeNatU_encode]; omega
  · simp [encodeInt, h, decodeInt, decodeNatU_encode]; omega

theorem decodeOptStr_encode (o : Option String) (rest : List Char) :
    decodeOptStr (encodeOptStr o ++ rest) = some (o, rest) := by
  cases o with
  | none => simp [encodeOptStr, decodeOptStr]
  | some s => simp [encodeOptStr, decodeOptStr, decodeStr_encode]

theorem decodeDataType_encode (d : RedditDataType) (rest : List Char) :
    decodeDataType (encodeDataType d ++ rest) = some (d, rest) := by
  cases d <;> simp [encodeDataType, decodeDataType]

theorem decodeOptStr_encode_nil (o : Option String) :
    decodeOptStr (encodeOptStr o) = some (o, []) := by
  have h := decodeOptStr_encode o []
  simpa using h

theorem parseRedditContent_encode (c : RedditContent) :
    parseRedditContent (encodeRedditContent c) = some c := by
  have hnil : encodeOptStr c.parent_id = encodeOptStr c.parent_id ++ [] := by simp
  rw [parseRedditContent, encodeRedditContent, hnil]
  simp [List.append_assoc, decodeStr_encode, decodeInt_encode, decodeDataType_encode,
    decodeOptStr_encode, decodeOptStr_encode_nil]

/- ===== Claim C10 ===== -/

/-- C10 (as amended): for every `RedditContent` whose community is a valid
label value (so that `to_data_entity` succeeds), converting to a
`DataEntity` and back is the identity, and the produced entity satisfies
`content_size_bytes = len(content)`, carries source REDDIT, uri equal to
the url, datetime equal to `created_at`, and label equal to the
lower-cased community. -/
theorem c10_roundtrip_amended (c : RedditContent) (e : DataEntity)
    (h : RedditContent.to_data_entity c = some e) :
    RedditContent.from_data_entity e = some c ∧
    e.content_size_bytes = e.content.length ∧
    e.source = DataSource.reddit ∧
    e.uri = c.url ∧
    e.datetime = c.created_at ∧
    e.label = some ⟨lowerString c.community⟩ := by
  unfold RedditContent.to_data_entity at h
  cases hm : mkDataLabel c.community with
  | none =>
    rw [hm] at h
    simp at h
  | some lbl =>
    rw [hm] at h
    simp only [Option.some.injEq] at h
    subst h
    have hl : lbl = ⟨lowerString c.community⟩ := by
      by_cases hc : c.community.length = 0 ∨ MAX_LABEL_LENGTH < c.community.length
      · simp [mkDataLabel, hc] at hm
      · simp [mkDataLabel, hc] at hm
        exact hm.symm
    refine ⟨?_, rfl, rfl, rfl, rfl, ?_⟩
    · exact parseRedditContent_encode c
    · simp [hl]

/-- A concrete content value whose community carries upper-case letters. -/
def redditContentMixedCase : RedditContent :=
  ⟨"t3_x", "https://reddit.com/x", "alice", "R/Bittensor_", "body text", 7200,
    RedditDataType.comment, none, some "t1_y"⟩

/-- C10 counterexample: at `redditContentMixedCase` the produced entity
label is the lower-cased community, which differs from the community
itself, so the label is not equal to `c.community` as the claim states. -/
theorem c10_label_counterexample :
    (RedditContent.to_data_entity redditContentMixedCase).map DataEntity.label =
      some (some ⟨"r/bittensor_"⟩) ∧
    redditContentMixedCase.community = "R/Bittensor_" ∧
    (⟨"r/bittensor_"⟩ : DataLabel) ≠ (⟨"R/Bittensor_"⟩ : DataLabel) := by
  refine ⟨by decide, rfl, by decide⟩

/-- A concrete content value with a valid, already lower-case community. -/
def redditContentValid : RedditContent :=
  ⟨"t3_abc", "https://reddit.com/abc", "bob", "r/bittensor_", "hello", 3600,
    RedditDataType.post, some "a title", none⟩

/-- The entity produced from `redditContentValid`. -/
def redditEntityValid : DataEntity :=
  { uri := redditContentValid.url
    datetime := redditContentValid.created_at
    source := DataSource.reddit
    label := some ⟨"r/bittensor_"⟩
    content := encodeRedditContent redditContentValid
    content_size_bytes := (encodeRedditContent redditContentValid).length }

set_option maxRecDepth 8000 in
/-- C10 witness: the amended round-trip theorem applied at a concrete
content value. -/
theorem c10_roundtrip_witness :
    RedditContent.to_data_entity redditContentValid = some redditEntityValid ∧
    RedditContent.from_data_entity redditEntityValid = some redditContentValid ∧
    redditEntityValid.label = some ⟨lowerString redditContentValid.community⟩ := by
  have h : RedditContent.to_data_entity redditContentValid = some redditEntityValid := by rfl
  exact ⟨h, (c10_roundtrip_amended redditContentValid redditEntityValid h).1,
    (c10_roundtrip_amended redditContentValid redditEntityValid h).2.2.2.2.2⟩

/- ===== Helper lemmas: scheduling ===== -/

theorem mem_batch_candidates (s : SchedulerState) :
    s.stream 0 ∈ ((List.range 10).map s.stream).dedup := by
  exact List.mem_dedup.mpr (List.mem_map.mpr ⟨0, by decide, rfl⟩)

theorem due_batchDecision (s : SchedulerState) (now : Int)
    (hdue : dueForUpdate s now (s.stream 0) = true) :
    ∃ uids, batchDecision s now = EvalPass.batch uids ∧ s.stream 0 ∈ uids := by
  have hmem : s.stream 0 ∈
      (((List.range 10).map s.stream).dedup).filter (dueForUpdate s now) :=
    List.mem_filter.mpr ⟨mem_batch_candidates s, hdue⟩
  refine ⟨(((List.range 10).map s.stream).dedup).filter (dueForUpdate s now), ?_, hmem⟩
  have hne : ((((List.range 10).map s.stream).dedup).filter (dueForUpdate s now)).isEmpty
      = false := by
    cases h0 : (((List.range 10).map s.stream).dedup).filter (dueForUpdate s now) with
    | nil => rw [h0] at hmem; cases hmem
    | cons a l => rfl
  unfold batchDecision
  simp only [hne, Bool.false_eq_true, if_false]

theorem due_scheduleDecision (s : SchedulerState) (now : Int)
    (hdue : dueForUpdate s now (s.stream 0) = true) :
    scheduleDecision s now = batchDecision s now := by
  unfold dueForUpdate at hdue
  unfold scheduleDecision
  cases h : s.lastUpdated (s.hotkeys (s.stream 0)) with
  | none => rfl
  | some t =>
    rw [h] at hdue
    simp at hdue
    simp [hdue]

/- ===== Claim C7 ===== -/

/-- C7: in a scheduling pass, when the peeked next-in-line miner was last
evaluated less than `MIN_EVALUATION_PERIOD` ago, no miner is evaluated and
the pass returns the remaining wait `last_evaluated + MIN_EVALUATION_PERIOD
- now`; when the peeked miner has no stored timestamp it is due
immediately, the pass proceeding to a batch that contains it. -/
theorem c7_schedule_wait_time (s : SchedulerState) (now : Int) :
    (∀ t, s.lastUpdated (s.hotkeys (s.stream 0)) = some t →
      now - t < MIN_EVALUATION_PERIOD →
      run_next_eval_batch s now = Except.ok (t + MIN_EVALUATION_PERIOD - now)) ∧
    (s.lastUpdated (s.hotkeys (s.stream 0)) = none →
      ∃ uids, scheduleDecision s now = EvalPass.batch uids ∧ s.stream 0 ∈ uids) := by
  constructor
  · intro t hlast hlt
    have hdec : scheduleDecision s now = EvalPass.wait (t + MIN_EVALUATION_PERIOD - now) := by
      unfold scheduleDecision
      rw [hlast]
      have : ¬ MIN_EVALUATION_PERIOD ≤ now - t := by omega
      simp [this]
    unfold run_next_eval_batch
    rw [hdec]
  · intro hnone
    have hdue : dueForUpdate s now (s.stream 0) = true := by
      unfold dueForUpdate
      rw [hnone]
    rw [due_scheduleDecision s now hdue]
    exact due_batchDecision s now hdue

/-- A scheduler state whose single miner was last evaluated at time 0. -/
def schedStateRecent : SchedulerState :=
  ⟨fun _ => "hk", fun _ => some 0, fun n => n⟩

/-- C7 witness: at a concrete state whose peeked miner was evaluated 10
seconds ago, the pass returns the remaining wait. -/
theorem c7_schedule_wait_witness :
    run_next_eval_batch schedStateRecent 10 =
      Except.ok (0 + MIN_EVALUATION_PERIOD - 10) :=
  (c7_schedule_wait_time schedStateRecent 10).1 0 rfl (by decide)

/- ===== Claim C8 ===== -/

/-- C8: when the peeked next-in-line miner is due for evaluation, the batch
built by drawing 10 uids from the iterator and filtering out
recently-evaluated miners is never empty: the peeked miner is always in the
drawn batch and passes the filter, so the assertion cannot fail. -/
theorem c8_batch_never_empty (s : SchedulerState) (now : Int)
    (hdue : dueForUpdate s now (s.stream 0) = true) :
    scheduleDecision s now ≠ EvalPass.assertViolation ∧
    ∃ uids, scheduleDecision s now = EvalPass.batch uids ∧ s.stream 0 ∈ uids := by
  rw [due_scheduleDecision s now hdue]
  obtain ⟨uids, hbatch, hmem⟩ := due_batchDecision s now hdue
  refine ⟨?_, uids, hbatch, hmem⟩
  rw [hbatch]
  intro h
  cases h

/-- A scheduler state in which no miner has ever been evaluated. -/
def schedStateFresh : SchedulerState :=
  ⟨fun _ => "hk", fun _ => none, fun n => n⟩

/-- C8 witness: at a concrete state whose peeked miner has never been
evaluated, the assertion does not fail. -/
theorem c8_batch_never_empty_witness :
    dueForUpdate schedStateFresh 0 (schedStateFresh.stream 0) = true ∧
    scheduleDecision schedStateFresh 0 ≠ EvalPass.assertViolation :=
  ⟨rfl, (c8_batch_never_empty schedStateFresh 0 rfl).1⟩

/- ===== Claim C9 ===== -/

/-- C9: the claim describes the intended join phase, but on every pass that
reaches the batch phase the deadline computation
`datetime.datetime.now() + datetime.datetime.timedelta(seconds=300)` on
line 304 raises AttributeError (the datetime class has no timedelta
attribute), so the pass never waits under the 300-second deadline and never
returns the zero wait. -/
theorem c9_join_phase_attribute_error (s : SchedulerState) (now : Int)
    (uids : List Nat) (h : scheduleDecision s now = EvalPass.batch uids) :
    run_next_eval_batch s now = Except.error attributeErrorMsg := by
  unfold run_next_eval_batch
  rw [h]
  rfl

/-- C9 witness: a concrete pass that reaches the batch phase ends in the
AttributeError instead of a zero wait. -/
theorem c9_join_phase_witness :
    run_next_eval_batch schedStateFresh 0 = Except.error attributeErrorMsg :=
  c9_join_phase_attribute_error schedStateFresh 0 [0, 1, 2, 3, 4, 5, 6, 7, 8, 9]
    (by decide)

/- ===== Claims C1 and C2 ===== -/

/-- True when an `Except` outcome is a normal return. -/
def exceptOk {e a : Type} : Except e a → Bool
  | Except.ok _ => true
  | Except.error _ => false

/-- C1 (as amended): every exit path of `eval_miner` that returns normally
makes exactly one call to `scorer.on_miner_evaluated` (the no-index,
bucket-fetch, basic-validation and uniqueness failures and the successful
deep-verification path); the one exception is a raised
`NoScorableDataError` from bucket selection on an index with zero total
scorable weight, which escapes `eval_miner` with no scoring call made. -/
theorem c1_scoring_calls_amended (env : EvalEnv) (uid : Nat) :
    (exceptOk (eval_miner env uid).1 = true → (eval_miner env uid).2.length = 1) ∧
    (exceptOk (eval_miner env uid).1 = false → (eval_miner env uid).2 = []) := by
  rcases h1 : update_and_get_miner_index env with _ | index
  · simp [eval_miner, h1, exceptOk]
  · rcases h2 : choose_data_entity_bucket_to_query index env.bucketSeed with e | ch
    · simp [eval_miner, h1, h2, exceptOk]
    · rcases h3 : env.bucketResponse ch with _ | ents
      · simp [eval_miner, h1, h2, h3, exceptOk]
      · by_cases h4 : (are_entities_valid ents ch).1 = false
        · simp [eval_miner, h1, h2, h3, h4, exceptOk]
        · by_cases h5 : are_entities_unique ents = false
          · simp [eval_miner, h1, h2, h3, h4, h5, exceptOk]
          · simp [eval_miner, h1, h2, h3, h4, h5, exceptOk]

/-- A stored index with one bucket whose scorable weight is zero. -/
def zeroScorableIndex : ScorableMinerIndex :=
  ⟨"hk", [⟨⟨⟨⟨5⟩, DataSource.reddit, none⟩, 100⟩, 0⟩], 0⟩

/-- An environment in which the miner does not reply and the persisted
index has zero total scorable bytes. -/
def envZeroScorable : EvalEnv :=
  ⟨"hk", none, some zeroScorableIndex, fun _ => none, fun _ => none, fun _ => [], 0,
    fun _ => 0⟩

/-- C1 counterexample: with a zero-scorable-weight index, `eval_miner`
terminates by the propagating `NoScorableDataError` having made no call to
the scoring collaborator, so not every execution makes exactly one call. -/
theorem c1_zero_scorable_counterexample :
    (eval_miner envZeroScorable 7).2.length ≠ 1 ∧
    (eval_miner envZeroScorable 7).2 = [] ∧
    (eval_miner envZeroScorable 7).1 =
      Except.error "NoScorableDataError: no scorable data in the miner index." := by
  refine ⟨by decide, by decide, rfl⟩

/-- An environment in which the miner does not reply and no index was ever
persisted. -/
def envNoIndex : EvalEnv :=
  ⟨"hk", none, none, fun _ => none, fun _ => none, fun _ => [], 0, fun _ => 0⟩

/-- C1 witness: the amended theorem applied at a concrete environment, a
normally returning execution making exactly one scoring call. -/
theorem c1_scoring_calls_witness : (eval_miner envNoIndex 3).2.length = 1 :=
  (c1_scoring_calls_amended envNoIndex 3).1 (by decide)

/-- C2: when the index fetch gets no response, or the response fails
normalization, the evaluation falls back to the last persisted index
(`storage.read_miner_index`); and when that fallback yields no index
either, `eval_miner` records a single failed `ValidationResult` with
`is_valid = False` and zero validated bytes, with no bucket selected, and
stops. -/
theorem c2_index_fallback (env : EvalEnv) (uid : Nat) :
    (env.indexResponse = none →
      update_and_get_miner_index env = env.readStoredIndex) ∧
    (∀ response msg, env.indexResponse = some response →
      get_miner_index_from_response response env.hotkey = Except.error msg →
      update_and_get_miner_index env = env.readStoredIndex) ∧
    (update_and_get_miner_index env = none →
      eval_miner env uid =
        (Except.ok (), [⟨uid, none, [⟨false, "No available miner index.", 0⟩]⟩])) := by
  refine ⟨?_, ?_, ?_⟩
  · intro h
    simp [update_and_get_miner_index, h]
  · intro response msg h hresp
    simp [update_and_get_miner_index, h, hresp]
  · intro h
    simp [eval_miner, h]

/-- C2 witness: the fallback theorem applied at a concrete environment with
no response and no persisted index. -/
theorem c2_index_fallback_witness :
    update_and_get_miner_index envNoIndex = none ∧
    eval_miner envNoIndex 5 =
      (Except.ok (), [⟨5, none, [⟨false, "No available miner index.", 0⟩]⟩]) :=
  ⟨rfl, (c2_index_fallback envNoIndex 5).2.2 rfl⟩

/- ===== Claim C3 ===== -/

/-- C3: index normalization rejects the whole index, producing no
`MinerIndex` at all, whenever any advertised bucket size exceeds
`DATA_ENTITY_BUCKET_SIZE_LIMIT_BYTES` (128 MB = 134,217,728 bytes) or the
total bucket count exceeds
`DATA_ENTITY_BUCKET_COUNT_LIMIT_PER_MINER_INDEX` (200,000), in both the
uncompressed and the compressed wire form. -/
theorem c3_index_limit_rejection :
    DATA_ENTITY_BUCKET_SIZE_LIMIT_BYTES = 134217728 ∧
    DATA_ENTITY_BUCKET_COUNT_LIMIT_PER_MINER_INDEX = 200000 ∧
    (∀ (hk : String) (bs : List DataEntityBucket) (ciq : Option CompressedMinerIndex),
      (anyBucketTooLarge bs = true ∨
        DATA_ENTITY_BUCKET_COUNT_LIMIT_PER_MINER_INDEX < bs.length) →
      exceptOk (get_miner_index_from_response ⟨some bs, ciq⟩ hk) = false) ∧
    (∀ (hk : String) (ci : CompressedMinerIndex),
      (anyCompressedSizeTooLarge ci = true ∨
        DATA_ENTITY_BUCKET_COUNT_LIMIT_PER_MINER_INDEX < ci.bucket_count) →
      exceptOk (get_miner_index_from_response ⟨none, some ci⟩ hk) = false) := by
  refine ⟨by decide, rfl, ?_, ?_⟩
  · intro hk bs ciq h
    by_cases hct : DATA_ENTITY_BUCKET_COUNT_LIMIT_PER_MINER_INDEX < bs.length
    · simp [get_miner_index_from_response, hct, exceptOk]
    · have hsz : anyBucketTooLarge bs = true := by
        rcases h with h | h
        · exact h
        · exact absurd h hct
      simp [get_miner_index_from_response, hct, hsz, exceptOk]
  · intro hk ci h
    by_cases hmis : anyMisalignedArrays ci = true
    · simp [get_miner_index_from_response, hmis, exceptOk]
    · by_cases hct : DATA_ENTITY_BUCKET_COUNT_LIMIT_PER_MINER_INDEX < ci.bucket_count
      · simp [get_miner_index_from_response, hmis, hct, exceptOk]
      · have hsz : anyCompressedSizeTooLarge ci = true := by
          rcases h with h | h
          · exact h
          · exact absurd h hct
        simp [get_miner_index_from_response, hmis, hct, hsz, exceptOk]

/-- An uncompressed bucket one byte over the size limit. -/
def oversizedBucket : DataEntityBucket :=
  ⟨⟨⟨5⟩, DataSource.reddit, some ⟨"r/bittensor_"⟩⟩, 134217729⟩

/-- A compressed index advertising one bucket one byte over the size limit. -/
def oversizedCompressedIndex : CompressedMinerIndex :=
  ⟨[(DataSource.x, [⟨some ⟨"#bittensor"⟩, [6], [134217729]⟩])]⟩

/-- C3 witness: the rejection theorem applied to a concrete oversized
uncompressed index and a concrete oversized compressed index. -/
theorem c3_index_limit_witness :
    anyBucketTooLarge [oversizedBucket] = true ∧
    exceptOk (get_miner_index_from_response ⟨some [oversizedBucket], none⟩ "hk") = false ∧
    anyCompressedSizeTooLarge oversizedCompressedIndex = true ∧
    exceptOk (get_miner_index_from_response ⟨none, some oversizedCompressedIndex⟩ "hk")
      = false :=
  ⟨by decide,
    c3_index_limit_rejection.2.2.1 "hk" [oversizedBucket] none (Or.inl (by decide)),
    by decide,
    c3_index_limit_rejection.2.2.2 "hk" oversizedCompressedIndex (Or.inl (by decide))⟩

/- ===== Claim C4 ===== -/

/-- The compressed index of the spec example: REDDIT carries label
r/bittensor_ with time buckets [5, 6] and sizes [100, 200]; X carries label
#bittensor with time bucket [6] and size [300]. -/
def compressedIndexExample : CompressedMinerIndex :=
  ⟨[(DataSource.reddit, [⟨some ⟨"r/bittensor_"⟩, [5, 6], [100, 200]⟩]),
    (DataSource.x, [⟨some ⟨"#bittensor"⟩, [6], [300]⟩])]⟩

/-- C4: normalizing the example compressed index is the order-preserving
unzip of the parallel arrays: it yields exactly the three buckets
(5, REDDIT, r/bittensor_, 100), (6, REDDIT, r/bittensor_, 200) and
(6, X, #bittensor, 300), in that order. -/
theorem c4_compressed_expansion :
    get_miner_index_from_response ⟨none, some compressedIndexExample⟩ "hk" =
      Except.ok
        ⟨"hk",
          [⟨⟨⟨5⟩, DataSource.reddit, some ⟨"r/bittensor_"⟩⟩, 100⟩,
            ⟨⟨⟨6⟩, DataSource.reddit, some ⟨"r/bittensor_"⟩⟩, 200⟩,
            ⟨⟨⟨6⟩, DataSource.x, some ⟨"#bittensor"⟩⟩, 300⟩]⟩ := by
  rfl

/- ===== Claim C5 ===== -/

/-- The bucket of the basic-validation test vectors: time bucket 5, source
REDDIT, label "label", advertised size 10 bytes. -/
def validationBucket : DataEntityBucket :=
  ⟨⟨⟨5⟩, DataSource.reddit, some ⟨"label"⟩⟩, 10⟩

/-- A timestamp one minute into the window of time bucket 5. -/
def validationTime : Int := 5 * 3600 + 60

/-- Entities where one claimed `content_size_bytes` does not match the
payload length. -/
def entitiesBadEntitySize : List DataEntity :=
  [⟨"http://1", validationTime, DataSource.reddit, some ⟨"label"⟩, ['1', '2', '3'], 3⟩,
   ⟨"http://2", validationTime, DataSource.reddit, some ⟨"label"⟩, ['1', '2', '3'], 200⟩]

/-- Entities internally consistent but summing to less than the advertised
bucket size. -/
def entitiesBadAggregateSize : List DataEntity :=
  [⟨"http://1", validationTime, DataSource.reddit, some ⟨"label"⟩, ['1', '2', '3'], 3⟩,
   ⟨"http://2", validationTime, DataSource.reddit, some ⟨"label"⟩, ['1', '2', '3'], 3⟩]

/-- Entities where one label does not match the bucket label. -/
def entitiesBadLabel : List DataEntity :=
  [⟨"http://1", validationTime, DataSource.reddit, none, ['1', '2', '3', '4', '5'], 5⟩,
   ⟨"http://2", validationTime, DataSource.reddit, some ⟨"label"⟩,
     ['1', '2', '3', '4', '5'], 5⟩]

/-- Entities where one source does not match the bucket source. -/
def entitiesBadSource : List DataEntity :=
  [⟨"http://1", validationTime, DataSource.reddit, some ⟨"label"⟩,
     ['1', '2', '3', '4', '5'], 5⟩,
   ⟨"http://2", validationTime, DataSource.x, some ⟨"label"⟩,
     ['1', '2', '3', '4', '5'], 5⟩]

/-- Entities where one datetime is one hour before the bucket window. -/
def entitiesBadDatetimeEarly : List DataEntity :=
  [⟨"http://1", validationTime - 3600, DataSource.reddit, some ⟨"label"⟩,
     ['1', '2', '3', '4', '5'], 5⟩,
   ⟨"http://2", validationTime, DataSource.reddit, some ⟨"label"⟩,
     ['1', '2', '3', '4', '5'], 5⟩]

/-- Entities where one datetime is one hour after the bucket window. -/
def entitiesBadDatetimeLate : List DataEntity :=
  [⟨"http://1", validationTime + 3600, DataSource.reddit, some ⟨"label"⟩,
     ['1', '2', '3', '4', '5'], 5⟩,
   ⟨"http://2", validationTime, DataSource.reddit, some ⟨"label"⟩,
     ['1', '2', '3', '4', '5'], 5⟩]

/-- C5: basic validation fails, each with its own reason, on a per-entity
size mismatch, an aggregate size mismatch, a label mismatch, a source
mismatch, a datetime before the window start and a datetime at or after the
window end; the five reason strings are pairwise distinct, and in
particular the per-entity and aggregate size mismatch reasons are
distinguished. -/
theorem c5_validation_failure_reasons :
    are_entities_valid entitiesBadEntitySize validationBucket =
      (false, entitySizeMismatchReason) ∧
    are_entities_valid entitiesBadAggregateSize validationBucket =
      (false, aggregateSizeMismatchReason) ∧
    are_entities_valid entitiesBadLabel validationBucket =
      (false, labelMismatchReason) ∧
    are_entities_valid entitiesBadSource validationBucket =
      (false, sourceMismatchReason) ∧
    are_entities_valid entitiesBadDatetimeEarly validationBucket =
      (false, datetimeMismatchReason) ∧
    are_entities_valid entitiesBadDatetimeLate validationBucket =
      (false, datetimeMismatchReason) ∧
    [entitySizeMismatchReason, aggregateSizeMismatchReason, labelMismatchReason,
      sourceMismatchReason, datetimeMismatchReason].Nodup := by
  refine ⟨by decide, by decide, by decide, by decide, by decide, by decide, by decide⟩

/- ===== Helper lemmas: weighted selection without replacement ===== -/

theorem chooseOne_cons_cons (a b : DataEntity) (t2 : List DataEntity) (r : Nat) :
    chooseOne (a :: b :: t2) r =
      if r < a.content_size_bytes then some (a, b :: t2)
      else (chooseOne (b :: t2) (r - a.content_size_bytes)).map
        (fun x => (x.1, a :: x.2)) := rfl

theorem chooseOne_perm : ∀ (pool : List DataEntity) (r : Nat) (e : DataEntity)
    (rest : List DataEntity), chooseOne pool r = some (e, rest) →
    pool.Perm (e :: rest) := by
  intro pool
  induction pool with
  | nil => intro r e rest h; simp [chooseOne] at h
  | cons a tail ih =>
    intro r e rest h
    cases tail with
    | nil =>
      simp [chooseOne] at h
      obtain ⟨rfl, rfl⟩ := h
      exact List.Perm.refl _
    | cons b t2 =>
      by_cases hr : r < a.content_size_bytes
      · rw [chooseOne_cons_cons, if_pos hr] at h
        simp only [Option.some.injEq, Prod.mk.injEq] at h
        obtain ⟨rfl, rfl⟩ := h
        exact List.Perm.refl _
      · rw [chooseOne_cons_cons, if_neg hr] at h
        cases hrec : chooseOne (b :: t2) (r - a.content_size_bytes) with
        | none => rw [hrec] at h; cases h
        | some p =>
          rw [hrec] at h
          simp at h
          obtain ⟨rfl, rfl⟩ := h
          have hp := ih (r - a.content_size_bytes) p.1 p.2 (by rw [hrec])
          exact (hp.cons a).trans (List.Perm.swap p.1 a p.2)

theorem chooseOne_some : ∀ (a : DataEntity) (tail : List DataEntity) (r : Nat),
    ∃ e rest, chooseOne (a :: tail) r = some (e, rest) := by
  intro a tail
  induction tail generalizing a with
  | nil => intro r; exact ⟨a, [], rfl⟩
  | cons b t2 ih =>
    intro r
    by_cases hr : r < a.content_size_bytes
    · exact ⟨a, b :: t2, by rw [chooseOne_cons_cons, if_pos hr]⟩
    · obtain ⟨e, rest, hrec⟩ := ih b (r - a.content_size_bytes)
      refine ⟨e, a :: rest, ?_⟩
      rw [chooseOne_cons_cons, if_neg hr, hrec]
      rfl

theorem chooseLoop_subperm (seeds : Nat → Nat) : ∀ (n : Nat)
    (pool : List DataEntity) (i : Nat),
    List.Subperm (chooseLoop seeds n pool i) pool := by
  intro n
  induction n with
  | zero => intro pool i; exact List.nil_subperm
  | succ n ih =>
    intro pool i
    rw [chooseLoop]
    cases hc : chooseOne pool (drawPoint seeds i pool) with
    | none => exact List.nil_subperm
    | some p =>
      have hperm := chooseOne_perm pool (drawPoint seeds i pool) p.1 p.2 (by rw [hc])
      have h2 : List.Subperm (p.1 :: chooseLoop seeds n p.2 (i + 1)) (p.1 :: p.2) :=
        (List.subperm_cons p.1).mpr (ih p.2 (i + 1))
      exact h2.trans hperm.symm.subperm

theorem chooseLoop_length (seeds : Nat → Nat) : ∀ (n : Nat)
    (pool : List DataEntity) (i : Nat),
    (chooseLoop seeds n pool i).length = min n pool.length := by
  intro n
  induction n with
  | zero => intro pool i; simp [chooseLoop]
  | succ n ih =>
    intro pool i
    cases pool with
    | nil => simp [chooseLoop, chooseOne]
    | cons a tail =>
      obtain ⟨e, rest, hc⟩ := chooseOne_some a tail (drawPoint seeds i (a :: tail))
      have hperm := chooseOne_perm (a :: tail) (drawPoint seeds i (a :: tail)) e rest hc
      have hlen := hperm.length_eq
      rw [chooseLoop, hc]
      simp only [List.length_cons] at hlen ⊢
      rw [ih rest (i + 1)]
      omega

/- ===== Claim C6 ===== -/

/-- C6: applied to any non-empty list of k candidates, entity selection
returns exactly `min(2, k)` entities chosen without replacement (the result
is a sub-permutation of the candidates, hence pairwise-distinct occurrences
and duplicate-free whenever the candidates are); with exactly one candidate
it returns that one entity alone, never duplicated. -/
theorem c6_entity_selection (entities : List DataEntity) (seeds : Nat → Nat)
    (hne : entities ≠ []) :
    (choose_entities_to_verify entities seeds).length = min 2 entities.length ∧
    List.Subperm (choose_entities_to_verify entities seeds) entities ∧
    (entities.Nodup → (choose_entities_to_verify entities seeds).Nodup) ∧
    (∀ e, entities = [e] → choose_entities_to_verify entities seeds = [e]) := by
  refine ⟨?_, ?_, ?_, ?_⟩
  · unfold choose_entities_to_verify
    rw [chooseLoop_length]
    omega
  · exact chooseLoop_subperm seeds (min 2 entities.length) entities 0
  · intro hd
    obtain ⟨l, hp, hs⟩ := chooseLoop_subperm seeds (min 2 entities.length) entities 0
    exact (hd.sublist hs).perm hp
  · intro e he
    subst he
    rfl

/-- A concrete single candidate entity. -/
def sampleEntity : DataEntity := ⟨"uri1", 0, DataSource.reddit, none, ['a'], 100⟩

/-- C6 witness: the selection theorem applied to a concrete one-entity
candidate list. -/
theorem c6_entity_selection_witness :
    choose_entities_to_verify [sampleEntity] (fun _ => 0) = [sampleEntity] ∧
    (choose_entities_to_verify [sampleEntity] (fun _ => 0)).length = min 2 1 :=
  ⟨(c6_entity_selection [sampleEntity] (fun _ => 0) (by decide)).2.2.2 sampleEntity rfl,
    (c6_entity_selection [sampleEntity] (fun _ => 0) (by decide)).1⟩
